import Mathlib

/-!
Shallow embedding of the Broadcastify Calls integration
(`src/__init__.py`, `src/sensor.py`, `src/media_player.py`).

The integration polls the Broadcastify Calls API, validates the returned
call entries, sorts them by timestamp, filters out the entry matching the
cursor `client._last_call_id`, publishes the remainder and advances the
cursor. Sensor and media-player entities consume the published batch.

Modelling conventions:
- a JSON call object is an association list of string keys to string
  values (every field the integration reads is a string);
- Python `None` becomes `Option.none`;
- exceptions become an `Except` error channel with an explicit exception
  type `PyExc`;
- the network layer is abstracted as an `HttpOutcome` input describing
  what the single HTTP request in `async_get_latest_calls` produced.

Noted while embedding `src/__init__.py`: the module never imports the
`json` module, yet line 61 evaluates `json.dumps(data, indent=2)` inside
an f-string (f-string interpolations are evaluated eagerly, before
`_LOGGER.debug` is even called), and line 80 evaluates
`json.JSONDecodeError` as an except-clause pattern. Both evaluations
raise `NameError` at runtime. The embedding models this faithfully; the
intended-but-unreachable body handling of lines 63-74 is embedded
separately as `processBody`.
-/

/-- One JSON call object from the API response, as a Python dict with
string values. An association list models the dict; lookup takes the
first binding (dict keys are unique, so this is exact). -/
structure Call where
  fields : List (String × String)
deriving DecidableEq

/-- Python `call.get(k)`: the value at key `k`, or `None` when absent. -/
def Call.get (c : Call) (k : String) : Option String :=
  c.fields.lookup k

/-- Python `call.get(k, d)`: the value at key `k`, or the default `d`. -/
def Call.getD (c : Call) (k d : String) : String :=
  (c.get k).getD d

/-- Python `k in call`: key-membership test on the dict. -/
def Call.hasKey (c : Call) (k : String) : Bool :=
  (c.get k).isSome

/-- The five field names checked by the validation loop at line 67 of
`src/__init__.py`. -/
def requiredFields : List String :=
  ["call_id", "timestamp", "audio_url", "talkgroup", "description"]

/-- Line 67: `all(k in call for k in [...])` — a call entry is valid when
all five required fields are present. -/
def isValid (c : Call) : Bool :=
  requiredFields.all fun k => c.hasKey k

/-- Value of a top-level key of the decoded JSON body, as far as the code
inspects it: line 63 only asks whether `data["calls"]` is a list (whose
elements are then treated as call dicts) or anything else. -/
inductive JsonItem where
  | list (cs : List Call)
  | nonList
deriving DecidableEq

/-- Decoded JSON response body, as a Python dict from string keys to
`JsonItem` values. -/
structure Body where
  entries : List (String × JsonItem)
deriving DecidableEq

/-- Exceptions that can travel through `async_get_latest_calls` and
`async_update_data`. `clientError` covers `aiohttp.ClientError` and its
subclass `ClientResponseError` raised by `raise_for_status()`;
`jsonDecodeError` is `json.JSONDecodeError` raised while decoding the
body; `nameError` is the `NameError` raised by an unresolved reference to
the never-imported `json` module; `updateFailed` is
`homeassistant.helpers.update_coordinator.UpdateFailed`. -/
inductive PyExc where
  | clientError
  | timeoutError
  | jsonDecodeError
  | nameError
  | updateFailed
deriving DecidableEq

/-- Outcome of the single HTTP request issued by
`async_get_latest_calls` (lines 57-60 of `src/__init__.py`):
- `transportError`: the connection or request raised
  `aiohttp.ClientError`;
- `timeout`: `asyncio.TimeoutError` fired (15 second limit, line 58);
- `httpStatusError`: non-2xx status, so `response.raise_for_status()`
  (line 59) raises `ClientResponseError`, a subclass of `ClientError`;
- `jsonDecodeError`: 2xx status but `response.json()` (line 60) raises
  `json.JSONDecodeError`;
- `body data`: 2xx status and the body decoded to the JSON object
  `data`. -/
inductive HttpOutcome where
  | transportError
  | timeout
  | httpStatusError
  | jsonDecodeError
  | body (data : Body)
deriving DecidableEq

/-- Lines 63-74 of `src/__init__.py`: the intended handling of a decoded
body. When `data["calls"]` exists and is a list, keep exactly the entries
with all five required fields (the loop at lines 64-70 appends the valid
ones in order, which is `List.filter`); otherwise log a warning and
return the empty list. NOTE: in the source as written this code is
unreachable, because line 61 raises `NameError` first; it is embedded
separately so that the intended behaviour can be stated and compared. -/
def processBody (data : Body) : List Call :=
  match data.entries.lookup "calls" with
  | some (JsonItem.list cs) => cs.filter isValid
  | _ => []

/-- Lines 56-74 of `src/__init__.py`: the `try` block of
`async_get_latest_calls`, mapping the HTTP outcome to either a value or
the exception escaping the block. In the `body` case, line 61
`_LOGGER.debug(f"Received data: \x7bjson.dumps(data, indent=2)\x7d")`
evaluates `json.dumps(data, indent=2)` before calling `debug`; the name
`json` is unbound in the module (no `import json` anywhere in the file),
so this raises `NameError` and lines 63-74 never run. -/
def fetchTryBlock (o : HttpOutcome) : Except PyExc (List Call) :=
  match o with
  | HttpOutcome.transportError => Except.error PyExc.clientError
  | HttpOutcome.timeout => Except.error PyExc.timeoutError
  | HttpOutcome.httpStatusError => Except.error PyExc.clientError
  | HttpOutcome.jsonDecodeError => Except.error PyExc.jsonDecodeError
  | HttpOutcome.body _ => Except.error PyExc.nameError

/-- Lines 76-84 of `src/__init__.py`: the except-clause chain.
`aiohttp.ClientError` (line 76) and `asyncio.TimeoutError` (line 78) are
converted to `UpdateFailed`. Any other exception reaches the clause
`except json.JSONDecodeError as err:` (line 80); evaluating the pattern
expression `json.JSONDecodeError` itself raises `NameError` (the `json`
module is never imported), and that new exception propagates out of the
function immediately — the final `except Exception` clause (line 82) is
never consulted. -/
def fetchExceptChain (e : PyExc) : Except PyExc (List Call) :=
  match e with
  | PyExc.clientError => Except.error PyExc.updateFailed
  | PyExc.timeoutError => Except.error PyExc.updateFailed
  | _ => Except.error PyExc.nameError

/-- Lines 47-84 of `src/__init__.py`:
`BroadcastifyApiClient.async_get_latest_calls`, as a function of the HTTP
outcome: run the `try` block, and on an escaping exception run the
except-clause chain. -/
def async_get_latest_calls (o : HttpOutcome) : Except PyExc (List Call) :=
  match fetchTryBlock o with
  | Except.ok v => Except.ok v
  | Except.error e => fetchExceptChain e

/-- Sort key of line 104: `lambda x: x.get("timestamp", "")`. -/
def tsKey (c : Call) : String :=
  c.getD "timestamp" ""

/-- Ordering used by the sort at line 104: plain lexicographic comparison
of the timestamp strings by code point, exactly how Python compares two
`str` values. Stated on `String.toList` so that it is kernel-decidable; a
conjunct of the C7 theorem identifies it with the `String` order. -/
def tsLe (a b : Call) : Prop :=
  (tsKey a).toList ≤ (tsKey b).toList

instance : DecidableRel tsLe :=
  fun a b => inferInstanceAs (Decidable ((tsKey a).toList ≤ (tsKey b).toList))

instance : IsTotal Call tsLe :=
  ⟨fun a b => le_total (tsKey a).toList (tsKey b).toList⟩

instance : IsTrans Call tsLe :=
  ⟨fun _ _ _ hab hbc => le_trans hab hbc⟩

/-- Line 104: `calls.sort(key=lambda x: x.get("timestamp", ""))`. Python
`list.sort` is a stable sort, and a stable sort by a total preorder has a
uniquely determined output, so insertion sort (also stable) computes the
same list. -/
def sortByTimestamp (calls : List Call) : List Call :=
  List.insertionSort tsLe calls

/-- Python truthiness of an optional string: `None` and `""` are falsy.
Used by `if client._last_call_id:` (line 108) and by
`if audio_url and ...` (`src/media_player.py` line 151). -/
def truthyOpt : Option String → Bool
  | none => false
  | some s => !(s == "")

/-- Lines 106-111 of `src/__init__.py`: the value bound to `new_calls`.
When the cursor is truthy, keep the calls whose `call_id` differs from it
(line 109; `call.get("call_id")` may be `None`, which compares unequal to
any string); otherwise keep the whole sorted batch (line 111). -/
def filterNew (last_call_id : Option String) (sorted_calls : List Call) :
    List Call :=
  if truthyOpt last_call_id then
    sorted_calls.filter fun c => c.get "call_id" != last_call_id
  else sorted_calls

/-- Lines 106-120 of `src/__init__.py`, after the sort: filter the sorted
batch against the cursor (`filterNew`) and publish. When the filtered
list `new_calls` is non-empty, the cursor becomes
`new_calls[-1].get("call_id")` (line 115) and `new_calls` is returned;
otherwise the cursor is untouched and `[]` is returned (line 120). The
result pairs the new cursor with the published value. -/
def publishStep (last_call_id : Option String) (sorted_calls : List Call) :
    Option String × Except PyExc (List Call) :=
  match (filterNew last_call_id sorted_calls).getLast? with
  | some lastCall =>
    (lastCall.get "call_id", Except.ok (filterNew last_call_id sorted_calls))
  | none => (last_call_id, Except.ok [])

/-- Lines 98-121 of `src/__init__.py`: one invocation of
`async_update_data`, as a function of the result of
`client.async_get_latest_calls()` and of the cursor
`client._last_call_id` before the call. An exception from the fetch
propagates (line 100 has no handler) and the cursor is untouched. An
empty fetched list falls through `if calls:` to line 121 and returns
`[]`. A non-empty list is sorted (line 104), then filtered and published
(lines 106-120, `publishStep`). -/
def async_update_data (fetched : Except PyExc (List Call))
    (last_call_id : Option String) :
    Option String × Except PyExc (List Call) :=
  match fetched with
  | Except.error e => (last_call_id, Except.error e)
  | Except.ok calls =>
    if calls.isEmpty then (last_call_id, Except.ok [])
    else publishStep last_call_id (sortByTimestamp calls)

/-- Composition of one full poll cycle: fetch (lines 47-84) then update
(lines 98-121), as a function of the HTTP outcome and the prior cursor. -/
def pollCycle (o : HttpOutcome) (last_call_id : Option String) :
    Option String × Except PyExc (List Call) :=
  async_update_data (async_get_latest_calls o) last_call_id

/-- Mutable fields of `BroadcastifyCallSensor` (`src/sensor.py`): the
`_state` value and the `_attributes` dict built at lines 82-89. -/
structure SensorState where
  state : Option String
  attributes : List (String × Option String)
deriving DecidableEq

/-- Lines 75-96 of `src/sensor.py`:
`BroadcastifyCallSensor._handle_coordinator_update`. When
`coordinator.data` is truthy (a non-empty batch), the state becomes the
`call_id` of `data[-1]` and the attributes dict is rebuilt; otherwise
(lines 91-96) only a debug line runs — the clearing code is commented
out, so the entity keeps its previous state and attributes. -/
def sensor_handle_coordinator_update (data : List Call) (s : SensorState) :
    SensorState :=
  match data.getLast? with
  | some latest =>
    { state := latest.get "call_id"
      attributes :=
        [("timestamp", latest.get "timestamp"),
         ("talkgroup", latest.get "talkgroup"),
         ("description", latest.get "description"),
         ("audio_url", latest.get "audio_url"),
         ("feed_id", latest.get "feed_id")] }
  | none => s

/-- Media type tag passed to `async_play_media`; the handler always
passes `MediaType.MUSIC`. -/
inductive MediaType where
  | music
  | other
deriving DecidableEq

/-- Mutable fields of `BroadcastifyCallMediaPlayer`
(`src/media_player.py` lines 40-42): `_state`, `_media_content_id`,
`_media_title`. -/
structure PlayerState where
  state : Option String
  media_content_id : Option String
  media_title : Option String
deriving DecidableEq

/-- Python `media_id.split('/')[-1]` (line 94 of `src/media_player.py`):
the last segment of the URL. `String.splitOn` agrees with Python
`str.split` on a one-character separator and never returns `[]`. -/
def lastSegment (media_id : String) : String :=
  (media_id.splitOn "/").getLastD media_id

/-- Lines 87-116 of `src/media_player.py`:
`BroadcastifyCallMediaPlayer.async_play_media`. For `MUSIC` media the
three mutable fields are set (lines 93-95); any other media type only
logs a warning and changes nothing. -/
def async_play_media (media_type : MediaType) (media_id : String)
    (p : PlayerState) : PlayerState :=
  match media_type with
  | MediaType.music =>
    { state := some "playing"
      media_content_id := some media_id
      media_title := some ("Broadcastify Call (" ++ lastSegment media_id ++ ")") }
  | MediaType.other => p

/-- Lines 141-158 of `src/media_player.py`:
`BroadcastifyCallMediaPlayer._handle_coordinator_update`. With a truthy
(non-empty) batch, take `audio_url` of `data[-1]`; when it is truthy and
differs from `_media_content_id` (line 151), schedule
`async_play_media(MUSIC, audio_url)` (lines 155-157). The second
component records the URL for which playback was triggered, `none` when
no task was created. -/
def player_handle_coordinator_update (data : List Call) (p : PlayerState) :
    PlayerState × Option String :=
  match data.getLast? with
  | some latest =>
    match latest.get "audio_url" with
    | some url =>
      if truthyOpt (some url) && (some url != p.media_content_id) then
        (async_play_media MediaType.music url p, some url)
      else (p, none)
    | none => (p, none)
  | none => (p, none)

/-- Helper building a fully valid call record with the five required
fields. -/
def mkCall (cid ts url tg desc : String) : Call :=
  ⟨[("call_id", cid), ("timestamp", ts), ("audio_url", url),
    ("talkgroup", tg), ("description", desc)]⟩

/-- Record C1 with timestamp "1", from the dedup-exactness scenario. -/
def rC1 : Call := mkCall "C1" "1" "http://audio/c1" "tg1" "d1"

/-- Record C2 with timestamp "2", from the dedup-exactness scenario. -/
def rC2 : Call := mkCall "C2" "2" "http://audio/c2" "tg2" "d2"

/-- Record C3 with timestamp "3", from the dedup-exactness scenario. -/
def rC3 : Call := mkCall "C3" "3" "http://audio/c3" "tg3" "d3"

/-- Record C1 of the sort-stability scenario, timestamp 2024-01-01. -/
def rA : Call := mkCall "C1" "2024-01-01" "http://audio/a" "tga" "da"

/-- Record C2 of the sort-stability scenario, timestamp 2024-01-02. -/
def rB : Call := mkCall "C2" "2024-01-02" "http://audio/b" "tgb" "db"

/-- Call entry missing four of the five required fields. -/
def malformedCall : Call := ⟨[("call_id", "X1")]⟩

/-- Fully valid sibling of `malformedCall`. -/
def goodCall : Call := mkCall "X2" "6" "http://audio/x2" "tgx" "dx"

/-- Decoded body whose `calls` list mixes a malformed entry with a valid
one. -/
def bodyMixed : Body := ⟨[("calls", JsonItem.list [malformedCall, goodCall])]⟩

/-- Decoded body with no `calls` key at all. -/
def bodyNoCalls : Body := ⟨[("status", JsonItem.nonList)]⟩

/-- Decoded body where the `calls` key holds a non-list value. -/
def bodyCallsNonList : Body := ⟨[("calls", JsonItem.nonList)]⟩

/-- Decoded body with an empty `calls` list. -/
def bodyEmptyCalls : Body := ⟨[("calls", JsonItem.list [])]⟩

/-- Player state that is already playing the audio URL of `rC1`. -/
def playerPlayingC1 : PlayerState :=
  { state := some "playing"
    media_content_id := some "http://audio/c1"
    media_title := some "Broadcastify Call (c1)" }

/-- Helper: the error arm of `async_update_data` — an exception from the
fetch propagates and the cursor is untouched. -/
theorem async_update_data_error (e : PyExc) (last : Option String) :
    async_update_data (Except.error e) last = (last, Except.error e) := rfl

/-- Helper: the empty-batch arm of `async_update_data` — line 121. -/
theorem async_update_data_ok_nil (last : Option String) :
    async_update_data (Except.ok []) last = (last, Except.ok []) := rfl

/-- Helper: the non-empty arm of `async_update_data` — sort at line 104,
then filter and publish. -/
theorem async_update_data_ok_cons (c : Call) (cs : List Call)
    (last : Option String) :
    async_update_data (Except.ok (c :: cs)) last =
      publishStep last (sortByTimestamp (c :: cs)) := rfl

/-- Helper: `publishStep` when the filtered list is non-empty. -/
theorem publishStep_getLast_some (last : Option String) (sorted : List Call)
    (lastCall : Call) (h : (filterNew last sorted).getLast? = some lastCall) :
    publishStep last sorted =
      (lastCall.get "call_id", Except.ok (filterNew last sorted)) := by
  unfold publishStep
  rw [h]

/-- Helper: `publishStep` when the filtered list is empty. -/
theorem publishStep_getLast_none (last : Option String) (sorted : List Call)
    (h : (filterNew last sorted).getLast? = none) :
    publishStep last sorted = (last, Except.ok []) := by
  unfold publishStep
  rw [h]

/-- C1: with `last_seen_call_id = "C1"` and fetched batch
`[C1(t=1), C2(t=2), C3(t=3)]` (already ascending by timestamp), the poll
cycle publishes exactly `[C2, C3]` in that order and sets
`last_seen_call_id` to `"C3"`. -/
theorem dedup_exactness_C1 :
    async_update_data (Except.ok [rC1, rC2, rC3]) (some "C1") =
      (some "C3", Except.ok [rC2, rC3]) := rfl

/-- C2, counterexample: with prior cursor `"C3"` and fetched batch
`[C1(t=1), C2(t=2), C3(t=3)]`, the cycle publishes `[C1, C2]` (at least
one record), yet the new cursor is `"C2"` — not the `call_id` `"C3"` of
the chronologically-last record of the fetched batch — and the cursor
rolled back from `"C3"` to the earlier record id `"C2"`. -/
theorem lastSeen_rollback_counterexample_C2 :
    async_update_data (Except.ok [rC1, rC2, rC3]) (some "C3") =
      (some "C2", Except.ok [rC1, rC2])
    ∧ (sortByTimestamp [rC1, rC2, rC3]).getLast? = some rC3
    ∧ rC3.get "call_id" = some "C3"
    ∧ (some "C2" : Option String) ≠ some "C3" :=
  ⟨rfl, rfl, rfl, by decide⟩

/-- C2, amended: after every cycle whose published (post-filter) list is
non-empty, `last_seen_call_id` equals the `call_id` of the last record of
the published list; this is the chronologically-last record of the batch
only when that record is not itself filtered out as the previous cursor,
and the cursor can move back to an earlier record id in that case. -/
theorem lastSeen_amended_C2 (calls : List Call) (last st : Option String)
    (pub : List Call) (l : Call)
    (hrun : async_update_data (Except.ok calls) last = (st, Except.ok pub))
    (hlast : pub.getLast? = some l) :
    st = l.get "call_id" := by
  cases calls with
  | nil =>
    rw [async_update_data_ok_nil] at hrun
    injection hrun with h1 h2
    injection h2 with h2
    subst h2
    exact Option.noConfusion hlast
  | cons c cs =>
    rw [async_update_data_ok_cons] at hrun
    cases hg : (filterNew last (sortByTimestamp (c :: cs))).getLast? with
    | none =>
      rw [publishStep_getLast_none _ _ hg] at hrun
      injection hrun with h1 h2
      injection h2 with h2
      subst h2
      exact Option.noConfusion hlast
    | some lastCall =>
      rw [publishStep_getLast_some _ _ _ hg] at hrun
      injection hrun with h1 h2
      injection h2 with h2
      rw [h2] at hg
      rw [hlast] at hg
      injection hg with h3
      rw [h3]
      exact h1.symm

/-- Witness for the amended C2 theorem at a concrete cycle: prior cursor
`"C3"`, batch `[rC1, rC2, rC3]`, published `[rC1, rC2]`, new cursor equal
to the `call_id` of `rC2`, the last published record. -/
theorem lastSeen_amended_witness_C2 :
    (some "C2" : Option String) = rC2.get "call_id" :=
  lastSeen_amended_C2 [rC1, rC2, rC3] (some "C3") (some "C2") [rC1, rC2]
    rC2 rfl rfl

/-- C3: as written, `async_get_latest_calls` never returns on a decoded
body — line 61 raises `NameError` (the `json` module is never imported)
for every well-formed body, including the empty-result ones. The second
conjunct records that the intended body handling of lines 63-74, the
embedded `processBody`, would indeed return only validated records. -/
theorem fetch_body_nameError_C3 :
    (∀ b : Body,
      async_get_latest_calls (HttpOutcome.body b) = Except.error PyExc.nameError)
    ∧ (∀ b : Body, (processBody b).all isValid = true) := by
  refine ⟨fun b => rfl, fun b => ?_⟩
  cases hb : b.entries.lookup "calls" with
  | none => simp [processBody, hb]
  | some it =>
    cases it with
    | nonList => simp [processBody, hb]
    | list cs =>
      simp only [processBody, hb, List.all_eq_true]
      intro a ha
      exact List.of_mem_filter ha

/-- C4: transport errors and non-2xx statuses are surfaced as a single
cycle-level `UpdateFailed` with the cursor untouched, as the claim says;
but a JSON decode failure is NOT converted — the except clause
`except json.JSONDecodeError` itself raises `NameError` (the `json`
module is never imported), so a `NameError` escapes instead of
`UpdateFailed`. The cursor is untouched on every failure path. -/
theorem fetch_failure_propagation_C4 (last : Option String) :
    pollCycle HttpOutcome.transportError last =
      (last, Except.error PyExc.updateFailed)
    ∧ pollCycle HttpOutcome.httpStatusError last =
      (last, Except.error PyExc.updateFailed)
    ∧ pollCycle HttpOutcome.timeout last =
      (last, Except.error PyExc.updateFailed)
    ∧ pollCycle HttpOutcome.jsonDecodeError last =
      (last, Except.error PyExc.nameError) :=
  ⟨rfl, rfl, rfl, rfl⟩

/-- C5: whenever a poll cycle publishes an empty result — the fetch
returned an empty list, or the filter removed every record — the cursor
`last_seen_call_id` is left unchanged, for every prior value. -/
theorem empty_publish_state_unchanged_C5 (calls : List Call)
    (last : Option String)
    (h : (async_update_data (Except.ok calls) last).2 = Except.ok []) :
    (async_update_data (Except.ok calls) last).1 = last := by
  cases calls with
  | nil => rfl
  | cons c cs =>
    rw [async_update_data_ok_cons] at h ⊢
    cases hg : (filterNew last (sortByTimestamp (c :: cs))).getLast? with
    | none => rw [publishStep_getLast_none _ _ hg]
    | some lastCall =>
      rw [publishStep_getLast_some _ _ _ hg] at h
      injection h with h
      rw [h] at hg
      exact Option.noConfusion hg

/-- Witness for C5 at the no-new-data scenario of the spec: prior cursor
`"C3"`, batch `[C3(t=3)]`, the filter removes everything and the cursor
stays `"C3"`. -/
theorem empty_publish_state_unchanged_witness_C5 :
    (async_update_data (Except.ok [rC3]) (some "C3")).1 = some "C3" :=
  empty_publish_state_unchanged_C5 [rC3] (some "C3") rfl

/-- C6: the per-entry validation never runs — on the body whose `calls`
list mixes a malformed entry with a valid sibling, the code raises
`NameError` at line 61 (the `json` module is never imported) before the
validation loop of lines 64-70 is reached. The remaining conjuncts record
that the intended handling (`processBody`) would drop exactly the
malformed entry and keep the sibling. -/
theorem validation_unreachable_C6 :
    async_get_latest_calls (HttpOutcome.body bodyMixed) =
      Except.error PyExc.nameError
    ∧ isValid malformedCall = false
    ∧ isValid goodCall = true
    ∧ processBody bodyMixed = [goodCall] :=
  ⟨rfl, rfl, rfl, rfl⟩

/-- C7: the poll cycle sorts the non-empty fetched batch ascending by the
timestamp field with plain lexicographic string comparison before
filtering — the sorted list is ordered under `tsLe` and is a permutation
of the batch, `tsLe` coincides with the `String` order on the timestamp
keys, the cycle on a non-empty batch is exactly `publishStep` applied
after `sortByTimestamp`, and the two-record example is reordered to
`[C1, C2]` from either input order. -/
theorem sort_before_filter_C7 :
    (∀ calls : List Call, (sortByTimestamp calls).Sorted tsLe
      ∧ (sortByTimestamp calls).Perm calls)
    ∧ (∀ a b : Call, tsLe a b ↔ tsKey a ≤ tsKey b)
    ∧ (∀ (c : Call) (cs : List Call) (last : Option String),
        async_update_data (Except.ok (c :: cs)) last =
          publishStep last (sortByTimestamp (c :: cs)))
    ∧ sortByTimestamp [rB, rA] = [rA, rB]
    ∧ sortByTimestamp [rA, rB] = [rA, rB] :=
  ⟨fun calls => ⟨List.sorted_insertionSort tsLe calls,
      List.perm_insertionSort tsLe calls⟩,
    fun _ _ => String.le_iff_toList_le.symm,
    fun _ _ _ => rfl, rfl, rfl⟩

/-- C8: a decodable body without a usable `calls` list (key absent, or
the value not a list) was meant to yield an empty, non-error result, but
the code raises `NameError` at line 61 (the `json` module is never
imported) before the structure check at line 63 runs. The last two
conjuncts record that the intended handling (`processBody`) would indeed
return the empty list for both shapes. -/
theorem missing_calls_key_C8 :
    async_get_latest_calls (HttpOutcome.body bodyNoCalls) =
      Except.error PyExc.nameError
    ∧ async_get_latest_calls (HttpOutcome.body bodyCallsNonList) =
      Except.error PyExc.nameError
    ∧ processBody bodyNoCalls = []
    ∧ processBody bodyCallsNonList = [] :=
  ⟨rfl, rfl, rfl, rfl⟩

/-- C9: a coordinator update that delivers an empty batch leaves the
sensor state and attributes exactly as they were — the else branch of
`_handle_coordinator_update` only logs, and the clearing code is
commented out. -/
theorem sensor_empty_update_unchanged_C9 (s : SensorState) :
    sensor_handle_coordinator_update [] s = s := rfl

/-- C10: on a non-empty batch the media player triggers playback only
when the `audio_url` of the last record differs from the current
`_media_content_id` (first conjunct: a triggered URL is never the one
already playing), and when it is equal the update is a no-op — no task is
created and `media_content_id`, `media_title` and `state` keep their
values (second conjunct). -/
theorem player_no_retrigger_C10 (data : List Call) (p : PlayerState)
    (latest : Call) (hlast : data.getLast? = some latest) :
    (∀ url : String, (player_handle_coordinator_update data p).2 = some url →
      p.media_content_id ≠ some url)
    ∧ (latest.get "audio_url" = p.media_content_id →
      player_handle_coordinator_update data p = (p, none)) := by
  cases hurl : latest.get "audio_url" with
  | none =>
    have hres : player_handle_coordinator_update data p = (p, none) := by
      unfold player_handle_coordinator_update
      simp [hlast, hurl]
    rw [hres]
    exact ⟨fun url h => Option.noConfusion h, fun _ => rfl⟩
  | some url0 =>
    by_cases hc : (truthyOpt (some url0) && (some url0 != p.media_content_id)) = true
    · have hres : player_handle_coordinator_update data p =
          (async_play_media MediaType.music url0 p, some url0) := by
        unfold player_handle_coordinator_update
        simp [hlast, hurl, hc]
      have hb : some url0 ≠ p.media_content_id := by
        have := ((Bool.and_eq_true _ _).mp hc).2
        exact bne_iff_ne.mp this
      rw [hres]
      constructor
      · intro url h
        injection h with h
        subst h
        exact fun hcontra => hb hcontra.symm
      · intro heq
        exact absurd heq hb
    · have hres : player_handle_coordinator_update data p = (p, none) := by
        unfold player_handle_coordinator_update
        simp only [hlast, hurl]
        rw [if_neg hc]
      rw [hres]
      exact ⟨fun url h => Option.noConfusion h, fun _ => rfl⟩

/-- Witness for C10: a one-record batch whose `audio_url` equals the URL
already playing — no playback task is created and the player fields are
unchanged. -/
theorem player_no_retrigger_witness_C10 :
    player_handle_coordinator_update [rC1] playerPlayingC1 =
      (playerPlayingC1, none) :=
  (player_no_retrigger_C10 [rC1] playerPlayingC1 rC1 rfl).2 rfl
